import Mathlib

/-!
Shallow embedding of the InquirerPy checkbox and rawlist prompt cores
(`src/InquirerPy/prompts/rawlist.py`, `src/InquirerPy/prompts/checkbox.py`,
`src/InquirerPy/utils.py`), together with theorems settling the
specification's claims about them.
-/

/-- Payload of one choice row: either a `Separator` marker or a plain value
(the opaque payload is modelled as a string).  Mirrors the
`isinstance(choice["value"], Separator)` discrimination in the Python code. -/
inductive ChoiceValue where
  | sep (txt : String)
  | plain (v : String)
deriving DecidableEq, Repr

/-- Whether the payload is the `Separator` sentinel. -/
def ChoiceValue.isSeparator : ChoiceValue → Bool
  | ChoiceValue.sep _ => true
  | ChoiceValue.plain _ => false

/-- One normalized choice record as produced by the base `InquirerPyUIControl`
normalization: `{"name": ..., "value": ..., "enabled": ...}`. -/
structure Choice where
  value : ChoiceValue
  name : String
  enabled : Bool
deriving DecidableEq, Repr

/-- A choice record after `InquirerPyRawlistControl.__init__` has run its
index-assignment loop.  The Python code stores `display_index` and
`actual_index` as extra dictionary keys only on non-separator choices;
an absent key is modelled as `Option.none`. -/
structure IndexedChoice where
  choice : Choice
  display_index : Option Nat
  actual_index : Option Nat
deriving DecidableEq, Repr

/-- The index-assignment loop of `InquirerPyRawlistControl.__init__`
(rawlist.py lines 31-37), with the running `enumerate` position `index` and
the running `separator_count` as explicit parameters:

    separator_count = 0
    for index, choice in enumerate(self.choices):
        if isinstance(choice["value"], Separator):
            separator_count += 1
            continue
        choice["display_index"] = index + 1 - separator_count
        choice["actual_index"] = index
-/
def assignIndicesAux (index sepCount : Nat) : List Choice → List IndexedChoice
  | [] => []
  | c :: rest =>
    if c.value.isSeparator then
      ⟨c, Option.none, Option.none⟩ :: assignIndicesAux (index + 1) (sepCount + 1) rest
    else
      ⟨c, Option.some (index + 1 - sepCount), Option.some index⟩ ::
        assignIndicesAux (index + 1) sepCount rest

/-- The full index-assignment pass, starting from position 0 and separator
count 0 as the Python loop does. -/
def assignIndices (choices : List Choice) : List IndexedChoice :=
  assignIndicesAux 0 0 choices

/-- Number of separator choices strictly before position `i`. -/
def sepCountBefore (choices : List Choice) (i : Nat) : Nat :=
  ((choices.take i).filter (fun c => c.value.isSeparator)).length

/-- Number of non-separator choices strictly before position `i`; this is the
0-based rank of the choice at `i` among non-separator choices when the choice
at `i` is itself a non-separator. -/
def nonSepCountBefore (choices : List Choice) (i : Nat) : Nat :=
  ((choices.take i).filter (fun c => !c.value.isSeparator)).length

theorem assignIndicesAux_length (choices : List Choice) :
    ∀ index sepCount, (assignIndicesAux index sepCount choices).length = choices.length := by
  induction choices with
  | nil => intro index sepCount; rfl
  | cons c rest ih =>
    intro index sepCount
    by_cases h : c.value.isSeparator
    · simp [assignIndicesAux, h, ih]
    · simp [assignIndicesAux, h, ih]

theorem assignIndices_length (choices : List Choice) :
    (assignIndices choices).length = choices.length :=
  assignIndicesAux_length choices 0 0

/-- The index-assignment pass keeps every underlying choice record unchanged
and in place. -/
theorem assignIndicesAux_map_choice (choices : List Choice) :
    ∀ index sepCount,
      (assignIndicesAux index sepCount choices).map (fun c => c.choice) = choices := by
  induction choices with
  | nil => intro index sepCount; rfl
  | cons c rest ih =>
    intro index sepCount
    by_cases h : c.value.isSeparator
    · simp [assignIndicesAux, h, ih]
    · simp [assignIndicesAux, h, ih]

theorem sepCountBefore_zero (choices : List Choice) : sepCountBefore choices 0 = 0 := by
  simp [sepCountBefore]

theorem sepCountBefore_cons_succ (c : Choice) (rest : List Choice) (i : Nat) :
    sepCountBefore (c :: rest) (i + 1) =
      (if c.value.isSeparator then 1 else 0) + sepCountBefore rest i := by
  by_cases h : c.value.isSeparator
  · simp [sepCountBefore, h, List.filter, Nat.add_comm]
  · simp [sepCountBefore, h, List.filter]

theorem nonSepCountBefore_zero (choices : List Choice) : nonSepCountBefore choices 0 = 0 := by
  simp [nonSepCountBefore]

theorem nonSepCountBefore_cons_succ (c : Choice) (rest : List Choice) (i : Nat) :
    nonSepCountBefore (c :: rest) (i + 1) =
      (if c.value.isSeparator then 0 else 1) + nonSepCountBefore rest i := by
  by_cases h : c.value.isSeparator
  · simp [nonSepCountBefore, h, List.filter]
  · simp [nonSepCountBefore, h, List.filter, Nat.add_comm]

theorem sepCountBefore_add_nonSepCountBefore (choices : List Choice) (i : Nat)
    (h : i ≤ choices.length) :
    sepCountBefore choices i + nonSepCountBefore choices i = i := by
  induction choices generalizing i with
  | nil =>
    have hi : i = 0 := Nat.le_zero.mp h
    subst hi
    simp [sepCountBefore, nonSepCountBefore]
  | cons c rest ih =>
    cases i with
    | zero => simp [sepCountBefore, nonSepCountBefore]
    | succ j =>
      have hj : j ≤ rest.length := by simpa using h
      rw [sepCountBefore_cons_succ, nonSepCountBefore_cons_succ]
      by_cases hc : c.value.isSeparator
      · rw [if_pos hc, if_pos hc]
        have := ih j hj
        omega
      · rw [if_neg hc, if_neg hc]
        have := ih j hj
        omega

theorem sepCountBefore_le (choices : List Choice) (i : Nat) (h : i ≤ choices.length) :
    sepCountBefore choices i ≤ i := by
  have := sepCountBefore_add_nonSepCountBefore choices i h
  omega

/-- Positional characterization of the index-assignment loop at a separator:
the record is passed through with neither `display_index` nor `actual_index`
set. -/
theorem assignIndicesAux_get_sep (choices : List Choice) (index sepCount i : Nat)
    (h : i < choices.length) (h2 : i < (assignIndicesAux index sepCount choices).length)
    (hsep : choices[i].value.isSeparator = true) :
    (assignIndicesAux index sepCount choices)[i] =
      ⟨choices[i], Option.none, Option.none⟩ := by
  induction choices generalizing index sepCount i with
  | nil => exact absurd h (Nat.not_lt_zero i)
  | cons c rest ih =>
    cases i with
    | zero =>
      simp only [List.getElem_cons_zero] at hsep ⊢
      simp [assignIndicesAux, hsep]
    | succ j =>
      have hj : j < rest.length := Nat.lt_of_succ_lt_succ h
      have hj2 : j < (assignIndicesAux (index + 1) (sepCount + 1) rest).length := by
        rw [assignIndicesAux_length]; exact hj
      have hj3 : j < (assignIndicesAux (index + 1) sepCount rest).length := by
        rw [assignIndicesAux_length]; exact hj
      simp only [List.getElem_cons_succ] at hsep ⊢
      by_cases hc : c.value.isSeparator
      · simp only [assignIndicesAux, hc, if_true, List.getElem_cons_succ]
        exact ih (index + 1) (sepCount + 1) j hj hj2 hsep
      · simp only [assignIndicesAux, hc, if_false, List.getElem_cons_succ]
        exact ih (index + 1) sepCount j hj hj3 hsep

/-- Positional characterization of the index-assignment loop at a
non-separator: the stored `display_index` is `index + i + 1 - (sepCount + s)`
where `s` counts the separators among the first `i` entries, and the stored
`actual_index` is the absolute position `index + i`. -/
theorem assignIndicesAux_get_nonsep (choices : List Choice) (index sepCount i : Nat)
    (h : i < choices.length) (h2 : i < (assignIndicesAux index sepCount choices).length)
    (hns : choices[i].value.isSeparator = false) :
    (assignIndicesAux index sepCount choices)[i] =
      ⟨choices[i],
        Option.some (index + i + 1 - (sepCount + sepCountBefore choices i)),
        Option.some (index + i)⟩ := by
  induction choices generalizing index sepCount i with
  | nil => exact absurd h (Nat.not_lt_zero i)
  | cons c rest ih =>
    cases i with
    | zero =>
      simp only [List.getElem_cons_zero] at hns ⊢
      simp [assignIndicesAux, hns, sepCountBefore_zero]
    | succ j =>
      have hj : j < rest.length := Nat.lt_of_succ_lt_succ h
      have hj2 : j < (assignIndicesAux (index + 1) (sepCount + 1) rest).length := by
        rw [assignIndicesAux_length]; exact hj
      have hj3 : j < (assignIndicesAux (index + 1) sepCount rest).length := by
        rw [assignIndicesAux_length]; exact hj
      simp only [List.getElem_cons_succ] at hns ⊢
      by_cases hc : c.value.isSeparator
      · simp only [assignIndicesAux, hc, if_true, List.getElem_cons_succ]
        rw [ih (index + 1) (sepCount + 1) j hj hj2 hns]
        simp only [IndexedChoice.mk.injEq, Option.some.injEq,
          sepCountBefore_cons_succ, hc, if_true, true_and]
        constructor <;> omega
      · simp only [assignIndicesAux, hc, Bool.false_eq_true, if_false,
          List.getElem_cons_succ]
        rw [ih (index + 1) sepCount j hj hj3 hns]
        simp only [IndexedChoice.mk.injEq, Option.some.injEq,
          sepCountBefore_cons_succ, hc, Bool.false_eq_true, if_false, true_and]
        constructor <;> omega

/-- A plain (non-separator) choice with name equal to its string value and
`enabled` false, as the base normalization produces. -/
def mkChoice (v : String) : Choice := ⟨ChoiceValue.plain v, v, false⟩

/-- A separator choice; its `enabled` flag is initialized false by the base
normalization and never touched afterwards. -/
def mkSep (txt : String) : Choice := ⟨ChoiceValue.sep txt, txt, false⟩

/-- The choice list `[Separator, "a", "b", "c"]` used by the spec's rawlist
jump-key example. -/
def demoChoices : List Choice := [mkSep "---", mkChoice "a", mkChoice "b", mkChoice "c"]

/-- C1: in the rawlist indexer's output, a separator at position `i` carries
no `display_index` and no `actual_index`, while a non-separator at position
`i` carries `actual_index = i` and `display_index = k + 1` where `k` is its
0-based rank among the non-separator choices in original order — so the
display indexes of the non-separator choices, read in order, are exactly
`1, 2, 3, ...`. -/
theorem rawlist_display_actual_index_assignment (choices : List Choice) (i : Nat)
    (h : i < choices.length) (h2 : i < (assignIndices choices).length) :
    (choices[i].value.isSeparator = true →
      (assignIndices choices)[i].display_index = Option.none ∧
      (assignIndices choices)[i].actual_index = Option.none) ∧
    (choices[i].value.isSeparator = false →
      (assignIndices choices)[i].display_index =
        Option.some (nonSepCountBefore choices i + 1) ∧
      (assignIndices choices)[i].actual_index = Option.some i) := by
  have h2' : i < (assignIndicesAux 0 0 choices).length := by
    simpa [assignIndices] using h2
  constructor
  · intro hsep
    have hg := assignIndicesAux_get_sep choices 0 0 i h h2' hsep
    simp only [assignIndices]
    rw [hg]
    exact ⟨rfl, rfl⟩
  · intro hns
    have hg := assignIndicesAux_get_nonsep choices 0 0 i h h2' hns
    have hsum := sepCountBefore_add_nonSepCountBefore choices i (Nat.le_of_lt h)
    simp only [assignIndices]
    rw [hg]
    simp only [IndexedChoice.mk.injEq, Option.some.injEq]
    constructor
    · omega
    · omega

/-- Witness for C1 at the concrete list `[Separator, "a", "b", "c"]`,
position 2 (the choice `"b"`). -/
theorem rawlist_display_actual_index_assignment_witness :
    ((assignIndices demoChoices).get ⟨2, by decide⟩).display_index =
        Option.some (nonSepCountBefore demoChoices 2 + 1) ∧
    ((assignIndices demoChoices).get ⟨2, by decide⟩).actual_index = Option.some 2 :=
  (rawlist_display_actual_index_assignment demoChoices 2 (by decide) (by decide)).2
    (by decide)

/-- The per-choice jump keybinding built by `RawlistPrompt.__init__`
(rawlist.py lines 167-176).  `keybinding_factory(choice)` is invoked once per
non-separator choice with the choice passed as a function argument, so each
registered handler closes over its own choice record; the handler's whole
effect is setting `selected_choice_index` to `int(choice["actual_index"])`.
A registered binding is therefore one pair: the literal decimal string of the
choice's `display_index`, and the `actual_index` the handler jumps to.
Non-separator choices produced by `assignIndices` always carry both indexes,
so the final fallback below is unreachable on real control state. -/
def rawlistKeyOf (c : IndexedChoice) : Option (String × Nat) :=
  if c.choice.value.isSeparator then Option.none
  else
    match c.display_index, c.actual_index with
    | Option.some d, Option.some a => Option.some (toString d, a)
    | _, _ => Option.none

/-- The keybinding registration loop over the control's indexed choices:
separators are skipped, every other choice registers exactly one binding. -/
def rawlistKeybindings (indexed : List IndexedChoice) : List (String × Nat) :=
  indexed.filterMap rawlistKeyOf

/-- All jump keybindings of a rawlist prompt built over `choices`. -/
def rawlistPromptKeybindings (choices : List Choice) : List (String × Nat) :=
  rawlistKeybindings (assignIndices choices)

/-- Dispatch of a single keypress against the registered jump bindings: the
handler bound to the pressed key string sets the cursor to its stored
`actual_index`; an unbound key leaves the cursor unchanged. -/
def pressKey (bindings : List (String × Nat)) (key : String) (cursor : Nat) : Nat :=
  match bindings.find? (fun b => b.fst == key) with
  | Option.some b => b.snd
  | Option.none => cursor

/-- C2: every non-separator choice at position `i` registers the binding
mapping the decimal string of its display index to its own `actual_index`
`i`; conversely every registered binding is of that shape for some
non-separator choice (each handler captured its own choice, not the last
loop value); and on `[Separator, "a", "b", "c"]` pressing `"2"` moves the
cursor to position 2, which holds the choice `"b"`. -/
theorem rawlist_jump_keybindings (choices : List Choice) (i : Nat)
    (h : i < choices.length) (hns : choices[i].value.isSeparator = false) :
    (toString (nonSepCountBefore choices i + 1), i) ∈ rawlistPromptKeybindings choices ∧
    (∀ k a, (k, a) ∈ rawlistPromptKeybindings choices →
      ∃ j, ∃ hj : j < choices.length,
        choices[j].value.isSeparator = false ∧
        k = toString (nonSepCountBefore choices j + 1) ∧ a = j) ∧
    pressKey (rawlistPromptKeybindings demoChoices) "2" 1 = 2 ∧
    demoChoices.get ⟨2, by decide⟩ = mkChoice "b" := by
  refine ⟨?_, ?_, by decide, by decide⟩
  · have h2 : i < (assignIndicesAux 0 0 choices).length := by
      rw [assignIndicesAux_length]; exact h
    have hg := assignIndicesAux_get_nonsep choices 0 0 i h h2 hns
    have hsum := sepCountBefore_add_nonSepCountBefore choices i (Nat.le_of_lt h)
    have hlen : i < (assignIndices choices).length := by
      rw [assignIndices_length]; exact h
    unfold rawlistPromptKeybindings rawlistKeybindings
    rw [List.mem_filterMap]
    refine ⟨(assignIndices choices)[i], ?_, ?_⟩
    · exact List.getElem_mem _
    · have : (assignIndices choices)[i] =
          ⟨choices[i],
            Option.some (0 + i + 1 - (0 + sepCountBefore choices i)),
            Option.some (0 + i)⟩ := hg
      rw [this]
      simp only [rawlistKeyOf, hns, Bool.false_eq_true, if_false]
      have hd : 0 + i + 1 - (0 + sepCountBefore choices i) = nonSepCountBefore choices i + 1 := by
        omega
      rw [hd]
      simp
  · intro k a hmem
    unfold rawlistPromptKeybindings rawlistKeybindings at hmem
    rw [List.mem_filterMap] at hmem
    obtain ⟨el, helm, hfn⟩ := hmem
    obtain ⟨j, hj, hel⟩ := List.getElem_of_mem helm
    have hjc : j < choices.length := by
      rw [assignIndices_length] at hj; exact hj
    have hj0 : j < (assignIndicesAux 0 0 choices).length := by
      rw [assignIndicesAux_length]; exact hjc
    by_cases hsep : choices[j].value.isSeparator
    · have hg : (assignIndices choices)[j] = ⟨choices[j], Option.none, Option.none⟩ :=
        assignIndicesAux_get_sep choices 0 0 j hjc hj0 hsep
      rw [hg] at hel
      rw [← hel] at hfn
      simp [rawlistKeyOf, hsep] at hfn
    · have hsep' : choices[j].value.isSeparator = false := by
        simpa using hsep
      have hg : (assignIndices choices)[j] =
          ⟨choices[j],
            Option.some (0 + j + 1 - (0 + sepCountBefore choices j)),
            Option.some (0 + j)⟩ :=
        assignIndicesAux_get_nonsep choices 0 0 j hjc hj0 hsep'
      rw [hg] at hel
      rw [← hel] at hfn
      simp only [rawlistKeyOf, hsep', Bool.false_eq_true, if_false] at hfn
      have hsum := sepCountBefore_add_nonSepCountBefore choices j (Nat.le_of_lt hjc)
      have hd : 0 + j + 1 - (0 + sepCountBefore choices j) = nonSepCountBefore choices j + 1 := by
        omega
      rw [hd] at hfn
      refine ⟨j, hjc, hsep', ?_, ?_⟩
      · have := hfn
        simp only [Option.some.injEq, Prod.mk.injEq] at this
        exact this.1.symm
      · have := hfn
        simp only [Option.some.injEq, Prod.mk.injEq] at this
        omega

/-- Witness for C2 at the concrete list `[Separator, "a", "b", "c"]`,
position 2 (the choice `"b"`, display index 2). -/
theorem rawlist_jump_keybindings_witness :
    (toString (nonSepCountBefore demoChoices 2 + 1), 2) ∈
      rawlistPromptKeybindings demoChoices :=
  (rawlist_jump_keybindings demoChoices 2 (by decide) (by decide)).1

/-- Errors the embedded code can raise: Python's built-in `IndexError` (list
index out of range) and InquirerPy's `InvalidArgument`. -/
inductive PyError where
  | indexError
  | invalidArgument (msg : String)
deriving DecidableEq, Repr

/-- Whether a computation ended in an `InvalidArgument`-class error. -/
def isInvalidArg {α : Type} : Except PyError α → Bool
  | Except.error (PyError.invalidArgument _) => true
  | _ => false

/-- The first-valid-choice scan of `InquirerPyRawlistControl.__init__`
(rawlist.py lines 39-41):

    first_valid_choice_index = 0
    while isinstance(self.choices[first_valid_choice_index]["value"], Separator):
        first_valid_choice_index += 1

Indexing `self.choices[k]` past the end raises Python's `IndexError`, which
is how the scan terminates on an all-separator list. -/
def firstValidScan (start : Nat) : List IndexedChoice → Except PyError Nat
  | [] => Except.error PyError.indexError
  | c :: rest =>
    if c.choice.value.isSeparator then firstValidScan (start + 1) rest
    else Except.ok start

/-- The default-relocation pass of `InquirerPyRawlistControl.__init__`
(rawlist.py lines 43-48): scan the choices in order, skip separators, and on
the first choice whose `display_index` equals the supplied `default`, move
the cursor to that choice's `actual_index`; leave the cursor alone when no
choice matches.  Comparing an `int` against `None` is `False` in Python. -/
def relocateDefault (indexed : List IndexedChoice) (default : Option Int)
    (cursor : Nat) : Nat :=
  match indexed.find? (fun c =>
      !c.choice.value.isSeparator &&
        (match c.display_index, default with
         | Option.some d, Option.some n => (d : Int) == n
         | _, _ => false)) with
  | Option.some c =>
    match c.actual_index with
    | Option.some a => a
    | Option.none => cursor
  | Option.none => cursor

/-- The rawlist content control state after construction. -/
structure RawlistControl where
  choices : List IndexedChoice
  selected_choice_index : Nat
deriving DecidableEq, Repr

/-- The body of `InquirerPyRawlistControl.__init__` after the base-class
call: index assignment, the first-valid-choice scan, and the conditional
default relocation.  The base-class `InquirerPyUIControl.__init__` is not
part of the sources under scrutiny; the cursor it computed is passed in as
`baseCursor` (per the spec it is the first non-separator index matching the
`default` argument, else the first non-separator index). -/
def rawlistControlInit (choices : List Choice) (default : Option Int)
    (baseCursor : Nat) : Except PyError RawlistControl :=
  match firstValidScan 0 (assignIndices choices) with
  | Except.error e => Except.error e
  | Except.ok fv =>
    if baseCursor = fv then
      Except.ok ⟨assignIndices choices,
        relocateDefault (assignIndices choices) default baseCursor⟩
    else
      Except.ok ⟨assignIndices choices, baseCursor⟩

/-- On a list whose members are all separators, the first-valid-choice scan
runs off the end of the list and raises `IndexError`. -/
theorem firstValidScan_all_sep (indexed : List IndexedChoice)
    (hall : ∀ c ∈ indexed, c.choice.value.isSeparator = true) :
    ∀ start, firstValidScan start indexed = Except.error PyError.indexError := by
  induction indexed with
  | nil => intro start; rfl
  | cons c rest ih =>
    intro start
    have hc : c.choice.value.isSeparator = true := hall c (List.mem_cons_self c rest)
    have hrest : ∀ d ∈ rest, d.choice.value.isSeparator = true := fun d hd =>
      hall d (List.mem_cons_of_mem c hd)
    simp only [firstValidScan, hc, if_true]
    exact ih hrest (start + 1)

/-- C3 counterexample: for the all-separator list `[Separator]`, constructing
the rawlist control fails with `IndexError` (list index out of range), not
with an `InvalidArgument`-class error as the claim states. -/
theorem rawlist_all_separator_counterexample :
    rawlistControlInit [mkSep "---"] Option.none 0 = Except.error PyError.indexError ∧
    isInvalidArg (rawlistControlInit [mkSep "---"] Option.none 0) = false := by
  constructor
  · rfl
  · rfl

/-- C3 amended: constructing a rawlist prompt over a non-empty all-separator
choice list fails before the interactive loop is entered, but with Python's
`IndexError` from the unbounded first-valid-choice scan running off the end
of the list, not with an `InvalidArgument`-class error. -/
theorem rawlist_all_separator_raises_index_error (choices : List Choice)
    (_hne : 0 < choices.length)
    (hall : ∀ c ∈ choices, c.value.isSeparator = true)
    (default : Option Int) (baseCursor : Nat) :
    rawlistControlInit choices default baseCursor = Except.error PyError.indexError := by
  have hallIdx : ∀ c ∈ assignIndices choices, c.choice.value.isSeparator = true := by
    intro c hc
    have hmap := assignIndicesAux_map_choice choices 0 0
    have : c.choice ∈ (assignIndices choices).map (fun d => d.choice) :=
      List.mem_map_of_mem (fun d => d.choice) hc
    rw [show (assignIndices choices).map (fun d => d.choice) = choices from hmap] at this
    exact hall c.choice this
  unfold rawlistControlInit
  rw [firstValidScan_all_sep (assignIndices choices) hallIdx 0]

/-- Witness for the amended C3 at the concrete one-separator list. -/
theorem rawlist_all_separator_raises_index_error_witness :
    rawlistControlInit [mkSep "==="] (Option.some 1) 0 =
      Except.error PyError.indexError :=
  rawlist_all_separator_raises_index_error [mkSep "==="] (by decide)
    (by decide) (Option.some 1) 0

/-- Modelled from the spec: `result_value` of the multiselect base prompt is
not among the sources under scrutiny; per the result contract the checkbox
prompt yields the `value` of every choice whose `enabled` flag is true, in
original choice order, possibly the empty sequence. -/
def result_value (choices : List Choice) : List ChoiceValue :=
  (choices.filter (fun c => c.enabled)).map (fun c => c.value)

/-- Modelled from the spec: `result_name` of the multiselect base prompt is
not among the sources under scrutiny; it is the display-name counterpart of
`result_value`, used for the answered-prompt echo. -/
def result_name (choices : List Choice) : List String :=
  (choices.filter (fun c => c.enabled)).map (fun c => c.name)

/-- Observable prompt state touched by the confirm handler: the `status`
dictionary of the prompt, the application exit value, and the `invalid`
flag that a failed validation would set. -/
structure PromptAppState where
  answered : Bool
  result : List String
  exit_result : Option (List ChoiceValue)
  invalid : Bool
deriving DecidableEq, Repr

/-- The body of `CheckboxPrompt._handle_enter` (checkbox.py lines 156-163):

    self.status["answered"] = True
    self.status["result"] = self.result_name
    event.app.exit(result=self.result_value)

The validator supplied at construction is carried as an argument only to
state that the handler never consults it; the handler body does not mention
it, exactly as in the source. -/
def checkboxHandleEnter (validate : List ChoiceValue → Bool)
    (choices : List Choice) (s : PromptAppState) : PromptAppState :=
  { s with
      answered := true
      result := result_name choices
      exit_result := Option.some (result_value choices) }

/-- C4: confirming a checkbox prompt in a state where no choice is enabled
completes the prompt (marks it answered and exits) with the empty result
sequence, and neither raises nor sets the invalid flag. -/
theorem checkbox_confirm_empty_selection (validate : List ChoiceValue → Bool)
    (choices : List Choice) (s : PromptAppState)
    (hnone : ∀ c ∈ choices, c.enabled = false) :
    (checkboxHandleEnter validate choices s).answered = true ∧
    (checkboxHandleEnter validate choices s).exit_result = Option.some [] ∧
    (checkboxHandleEnter validate choices s).invalid = s.invalid := by
  have hfilter : choices.filter (fun c => c.enabled) = [] := by
    rw [List.filter_eq_nil_iff]
    intro c hc
    simp [hnone c hc]
  refine ⟨rfl, ?_, rfl⟩
  simp [checkboxHandleEnter, result_value, hfilter]

/-- Witness for C4 at a concrete two-element state with nothing enabled. -/
theorem checkbox_confirm_empty_selection_witness :
    (checkboxHandleEnter (fun r => !r.isEmpty) [mkChoice "a", mkChoice "b"]
        ⟨false, [], Option.none, false⟩).answered = true ∧
    (checkboxHandleEnter (fun r => !r.isEmpty) [mkChoice "a", mkChoice "b"]
        ⟨false, [], Option.none, false⟩).exit_result = Option.some [] ∧
    (checkboxHandleEnter (fun r => !r.isEmpty) [mkChoice "a", mkChoice "b"]
        ⟨false, [], Option.none, false⟩).invalid =
      (⟨false, [], Option.none, false⟩ : PromptAppState).invalid :=
  checkbox_confirm_empty_selection (fun r => !r.isEmpty)
    [mkChoice "a", mkChoice "b"] ⟨false, [], Option.none, false⟩ (by decide)

/-- C9: the checkbox confirm handler marks the prompt answered and exits
with the result without consulting the supplied validator at all: its output
is identical for any two validators, it exits with `result_value`, and it
leaves the `invalid` flag untouched. -/
theorem checkbox_confirm_skips_validation (v w : List ChoiceValue → Bool)
    (choices : List Choice) (s : PromptAppState) :
    (checkboxHandleEnter v choices s).answered = true ∧
    (checkboxHandleEnter v choices s).exit_result =
      Option.some (result_value choices) ∧
    (checkboxHandleEnter v choices s).invalid = s.invalid ∧
    checkboxHandleEnter v choices s = checkboxHandleEnter w choices s :=
  ⟨rfl, rfl, rfl, rfl⟩

/-- A `height`/`max_height` argument of `calculate_height` (utils.py):
Python `None`, an `int`, or a `str`. -/
inductive HeightVal where
  | vnone
  | vint (n : Int)
  | vstr (s : String)
deriving DecidableEq, Repr

/-- Python truthiness of a height argument, as tested by `if not height:`
and `if not max_height:`: `None`, `0` and the empty string are falsy. -/
def HeightVal.truthy : HeightVal → Bool
  | HeightVal.vnone => false
  | HeightVal.vint n => n != 0
  | HeightVal.vstr s => s != ""

/-- The value of one decimal digit character. -/
def digitVal (c : Char) : Option Nat :=
  if '0' ≤ c ∧ c ≤ '9' then Option.some (c.toNat - '0'.toNat) else Option.none

/-- Left-to-right accumulation of decimal digits; fails on the first
non-digit character. -/
def parseDigitsAux (acc : Nat) : List Char → Option Nat
  | [] => Option.some acc
  | c :: rest =>
    match digitVal c with
    | Option.some d => parseDigitsAux (acc * 10 + d) rest
    | Option.none => Option.none

/-- Python's `int(s)` restricted to an optional sign followed by one or more
decimal digits; anything else raises `ValueError` (`Option.none` here).
Python additionally tolerates surrounding whitespace and interior
underscores, which no height string in scope uses. -/
def pyInt (s : String) : Option Int :=
  match s.data with
  | [] => Option.none
  | '-' :: rest =>
    match rest with
    | [] => Option.none
    | _ => (parseDigitsAux 0 rest).map (fun n => -(n : Int))
  | '+' :: rest =>
    match rest with
    | [] => Option.none
    | _ => (parseDigitsAux 0 rest).map (fun n => (n : Int))
  | l => (parseDigitsAux 0 l).map (fun n => (n : Int))

/-- Python's `s.replace("%", "")`: drop every `%` character. -/
def stripPercent (s : String) : String :=
  String.mk (s.data.filter (fun c => c != '%'))

/-- The `height` branch of `calculate_height` (utils.py lines 51-59): falsy
heights give `None`; a string is stripped of `%`, parsed as an int `P`, and
becomes `floor(term_lines * P / 100) - offset`; an integer is used as-is.
`Option.none` in the outer layer is the `ValueError` caught at line 78.
Python evaluates `term_lines * (P / 100)` in floating point; the exact
rational floor `Int.fdiv` used here agrees on all values in scope. -/
def calcDimHeight (term_lines offset : Int) (height : HeightVal) : Option (Option Int) :=
  if height.truthy = false then Option.some Option.none
  else
    match height with
    | HeightVal.vstr s =>
      match pyInt (stripPercent s) with
      | Option.none => Option.none
      | Option.some p => Option.some (Option.some (Int.fdiv (term_lines * p) 100 - offset))
    | HeightVal.vint n => Option.some (Option.some n)
    | HeightVal.vnone => Option.some Option.none

/-- The `max_height` branch of `calculate_height` (utils.py lines 61-71):
identical to the `height` branch except that a falsy argument defaults the
bound to `term_lines - offset`. -/
def calcDimMaxHeight (term_lines offset : Int) (max_height : HeightVal) : Option Int :=
  if max_height.truthy = false then Option.some (term_lines - offset)
  else
    match max_height with
    | HeightVal.vstr s =>
      match pyInt (stripPercent s) with
      | Option.none => Option.none
      | Option.some p => Option.some (Int.fdiv (term_lines * p) 100 - offset)
    | HeightVal.vint n => Option.some n
    | HeightVal.vnone => Option.some (term_lines - offset)

/-- The final clamp of `calculate_height` (utils.py lines 72-75):

    if dimmension_height and dimmension_height > dimmension_max_height:
        dimmension_height = dimmension_max_height
    if dimmension_height and dimmension_height < 0:
        dimmension_height = 1

Both guards use Python truthiness, so they are skipped when the height is
`None` or `0`; the second guard tests the value assigned by the first. -/
def clampHeight (d : Option Int) (m : Int) : Option Int :=
  match d with
  | Option.none => Option.none
  | Option.some v =>
    let v1 : Int := if v ≠ 0 ∧ m < v then m else v
    Option.some (if v1 ≠ 0 ∧ v1 < 0 then 1 else v1)

/-- The exact message of the `InvalidArgument` raised by `calculate_height`. -/
def heightErrorMsg : String :=
  "prompt height needs to be either an int or str representing height percentage."

/-- `calculate_height` from utils.py, with the terminal line count (obtained
from `shutil.get_terminal_size()` in Python) and the `offset` as explicit
inputs.  A `ValueError` from either `int(...)` call is turned into
`InvalidArgument`. -/
def calculate_height (term_lines offset : Int) (height max_height : HeightVal) :
    Except PyError (Option Int × Int) :=
  match calcDimHeight term_lines offset height with
  | Option.none => Except.error (PyError.invalidArgument heightErrorMsg)
  | Option.some d =>
    match calcDimMaxHeight term_lines offset max_height with
    | Option.none => Except.error (PyError.invalidArgument heightErrorMsg)
    | Option.some m => Except.ok (clampHeight d m, m)

/-- C5: the four concrete height calculations at terminal height 40 and
offset 1: `(None, None)` gives `(None, 39)`; `("50%", None)` gives
`(19, 39)`; `(100, 10)` clamps down to `(10, 10)`; `("abc", None)` raises
`InvalidArgument`. -/
theorem calculate_height_examples :
    calculate_height 40 1 HeightVal.vnone HeightVal.vnone =
      Except.ok (Option.none, 39) ∧
    calculate_height 40 1 (HeightVal.vstr "50%") HeightVal.vnone =
      Except.ok (Option.some 19, 39) ∧
    calculate_height 40 1 (HeightVal.vint 100) (HeightVal.vint 10) =
      Except.ok (Option.some 10, 10) ∧
    calculate_height 40 1 (HeightVal.vstr "abc") HeightVal.vnone =
      Except.error (PyError.invalidArgument heightErrorMsg) := by
  refine ⟨rfl, rfl, rfl, rfl⟩

/-- C6 counterexample: with a negative integer `max_height`, the returned
height exceeds the returned max height.  `calculate_height(10, -5)` at
terminal height 40, offset 1: the first clamp lowers 10 to -5, the second
raises -5 to 1, and the result `(1, -5)` has `1 > -5`. -/
theorem calculate_height_clamp_counterexample :
    calculate_height 40 1 (HeightVal.vint 10) (HeightVal.vint (-5)) =
      Except.ok (Option.some 1, -5) ∧
    ¬((1 : Int) ≤ (-5 : Int)) :=
  ⟨rfl, by decide⟩

/-- C6 amended: the clamps fire only when the intermediate height is truthy
(non-`None` and nonzero); the returned height, when not `None`, is never
negative, and it never exceeds the returned max height provided that max
height is at least 1 (with a zero or negative max height the returned
height may exceed it). -/
theorem calculate_height_clamp (term_lines offset : Int) (height max_height : HeightVal)
    (d m : Int)
    (heq : calculate_height term_lines offset height max_height =
      Except.ok (Option.some d, m)) :
    0 ≤ d ∧ (1 ≤ m → d ≤ m) := by
  unfold calculate_height at heq
  cases hd : calcDimHeight term_lines offset height with
  | none => rw [hd] at heq; exact absurd heq (by simp)
  | some d0 =>
    rw [hd] at heq
    cases hm : calcDimMaxHeight term_lines offset max_height with
    | none => rw [hm] at heq; exact absurd heq (by simp)
    | some m0 =>
      rw [hm] at heq
      have hpair : clampHeight d0 m0 = Option.some d ∧ m0 = m := by
        have h1 := heq
        simp only [Except.ok.injEq, Prod.mk.injEq] at h1
        exact h1
      obtain ⟨hc, hm0⟩ := hpair
      subst hm0
      cases d0 with
      | none => simp [clampHeight] at hc
      | some v =>
        simp only [clampHeight, Option.some.injEq] at hc
        split_ifs at hc <;> omega

/-- Witness for the amended C6 at `calculate_height(100, 10)`, which returns
`(10, 10)`. -/
theorem calculate_height_clamp_witness :
    (0 : Int) ≤ 10 ∧ ((1 : Int) ≤ 10 → (10 : Int) ≤ 10) :=
  calculate_height_clamp 40 1 (HeightVal.vint 100) (HeightVal.vint 10) 10 10 rfl

/-- C7 counterexample: the integer height 0 is falsy under the `if not
height:` guard, so `dimmension_height` becomes `None` instead of 0 and the
prompt returns `(None, 39)` — the claim's "used as-is, in particular for 0"
fails. -/
theorem integer_height_zero_counterexample :
    calcDimHeight 40 1 (HeightVal.vint 0) = Option.some Option.none ∧
    calculate_height 40 1 (HeightVal.vint 0) HeightVal.vnone =
      Except.ok (Option.none, 39) :=
  ⟨rfl, rfl⟩

/-- C7 amended: every nonzero integer height is used as-is as the pre-clamp
`dimmension_height`; the integer 0 is falsy and treated exactly like an
unset height, yielding `None`. -/
theorem integer_height_used_as_is (term_lines offset n : Int) (h : n ≠ 0) :
    calcDimHeight term_lines offset (HeightVal.vint n) =
      Option.some (Option.some n) ∧
    calcDimHeight term_lines offset (HeightVal.vint 0) = Option.some Option.none ∧
    calcDimHeight term_lines offset HeightVal.vnone = Option.some Option.none := by
  refine ⟨?_, rfl, rfl⟩
  simp [calcDimHeight, HeightVal.truthy, h]

/-- Witness for the amended C7 at the integer height 5. -/
theorem integer_height_used_as_is_witness :
    calcDimHeight 40 1 (HeightVal.vint 5) = Option.some (Option.some 5) ∧
    calcDimHeight 40 1 (HeightVal.vint 0) = Option.some Option.none ∧
    calcDimHeight 40 1 HeightVal.vnone = Option.some Option.none :=
  integer_height_used_as_is 40 1 5 (by decide)

/-- C10 counterexample: the empty string is falsy under `if not height:`,
so it is treated as unset and `calculate_height` returns without raising,
although the empty string with `%` removed fails to parse as an integer —
the claimed "raises if and only if" is violated at `""`. -/
theorem percent_string_empty_counterexample :
    stripPercent "" = "" ∧
    pyInt "" = Option.none ∧
    calculate_height 40 1 (HeightVal.vstr "") HeightVal.vnone =
      Except.ok (Option.none, 39) ∧
    isInvalidArg (calculate_height 40 1 (HeightVal.vstr "") HeightVal.vnone) = false :=
  ⟨rfl, rfl, rfl, rfl⟩

/-- C10 amended: for every non-empty string passed as `height` or
`max_height`, `calculate_height` raises `InvalidArgument` exactly when the
string with all `%` characters removed fails to parse as an integer; two
non-empty strings whose percent-stripped forms agree are treated
identically; and an accepted string is always interpreted through the
percentage formula `floor(term_lines * P / 100) - offset`, never as an
absolute row count. -/
theorem percent_string_parse (s t : String) (hs : s ≠ "") (ht : t ≠ "")
    (term_lines offset : Int) :
    (isInvalidArg (calculate_height term_lines offset (HeightVal.vstr s)
        HeightVal.vnone) = true ↔
      pyInt (stripPercent s) = Option.none) ∧
    (isInvalidArg (calculate_height term_lines offset HeightVal.vnone
        (HeightVal.vstr s)) = true ↔
      pyInt (stripPercent s) = Option.none) ∧
    (stripPercent s = stripPercent t →
      calculate_height term_lines offset (HeightVal.vstr s) HeightVal.vnone =
        calculate_height term_lines offset (HeightVal.vstr t) HeightVal.vnone) ∧
    (∀ p, pyInt (stripPercent s) = Option.some p →
      calculate_height term_lines offset (HeightVal.vstr s) HeightVal.vnone =
        Except.ok
          (clampHeight (Option.some (Int.fdiv (term_lines * p) 100 - offset))
            (term_lines - offset),
           term_lines - offset)) := by
  have hts : HeightVal.truthy (HeightVal.vstr s) = true := by
    simp [HeightVal.truthy, hs]
  have htt : HeightVal.truthy (HeightVal.vstr t) = true := by
    simp [HeightVal.truthy, ht]
  refine ⟨?_, ?_, ?_, ?_⟩
  · cases hp : pyInt (stripPercent s) with
    | none =>
      have h1 : calcDimHeight term_lines offset (HeightVal.vstr s) = Option.none := by
        simp [calcDimHeight, hts, hp]
      simp [calculate_height, h1, isInvalidArg]
    | some p =>
      have h1 : calcDimHeight term_lines offset (HeightVal.vstr s) =
          Option.some (Option.some (Int.fdiv (term_lines * p) 100 - offset)) := by
        simp [calcDimHeight, hts, hp]
      simp [calculate_height, h1, calcDimMaxHeight, HeightVal.truthy, isInvalidArg, hp]
  · cases hp : pyInt (stripPercent s) with
    | none =>
      have h1 : calcDimMaxHeight term_lines offset (HeightVal.vstr s) = Option.none := by
        simp [calcDimMaxHeight, hts, hp]
      simp [calculate_height, h1, calcDimHeight, HeightVal.truthy, isInvalidArg]
    | some p =>
      have h1 : calcDimMaxHeight term_lines offset (HeightVal.vstr s) =
          Option.some (Int.fdiv (term_lines * p) 100 - offset) := by
        simp [calcDimMaxHeight, hts, hp]
      simp [calculate_height, h1, calcDimHeight, HeightVal.truthy, isInvalidArg, hp]
  · intro hst
    simp only [calculate_height, calcDimHeight, calcDimMaxHeight, hts, htt,
      Bool.true_eq_false, if_false, hst]
  · intro p hp
    have h1 : calcDimHeight term_lines offset (HeightVal.vstr s) =
        Option.some (Option.some (Int.fdiv (term_lines * p) 100 - offset)) := by
      simp [calcDimHeight, hts, hp]
    simp [calculate_height, h1, calcDimMaxHeight, HeightVal.truthy]

/-- Witness for the amended C10: `"6%0"` and `"60%"` are both accepted and
treated as 60 percent, and the no-percent-sign string `"60"` still means 60
percent of 40 lines (23 rows after the offset), not 60 absolute rows. -/
theorem percent_string_parse_witness :
    (isInvalidArg (calculate_height 40 1 (HeightVal.vstr "6%0") HeightVal.vnone) = true ↔
      pyInt (stripPercent "6%0") = Option.none) ∧
    calculate_height 40 1 (HeightVal.vstr "60") HeightVal.vnone =
      Except.ok (Option.some 23, 39) :=
  ⟨(percent_string_parse "6%0" "60%" (by decide) (by decide) 40 1).1, rfl⟩

/-- A string of `n` spaces, Python's `n * " "`. -/
def spaces (n : Nat) : String := String.mk (List.replicate n ' ')

/-- Decimal string of a stored display index.  On control state produced by
`assignIndices` every non-separator choice carries one, so the fallback for
a missing key is unreachable there (Python would raise `KeyError`). -/
def displayIndexStr (c : IndexedChoice) : String :=
  match c.display_index with
  | Option.some d => toString d
  | Option.none => "None"

/-- `InquirerPyCheckboxControl._get_normal_text` (checkbox.py lines 69-84):
alignment padding as wide as the stored pointer, then for a non-separator
the checkbox glyph plus a space and the name, and for a separator only the
name under the separator style.  `pointer` is the control's stored
`self.pointer`, which the constructor set to the pointer glyph plus one
space. -/
def checkboxNormalText (pointer enabledSymbol disabledSymbol : String)
    (c : Choice) : List (String × String) :=
  if c.value.isSeparator then
    [("", spaces pointer.length), ("class:separator", c.name)]
  else
    [("", spaces pointer.length),
     ("class:checkbox",
       (if c.enabled then enabledSymbol else disabledSymbol) ++ " "),
     ("", c.name)]

/-- `InquirerPyRawlistControl._get_normal_text` (rawlist.py lines 70-86):
alignment padding, then unconditionally the marker column (the marker glyph
when the choice is enabled, a single space otherwise), then for a
non-separator the display index with the index separator and the name, and
for a separator only the name under the separator style.  `pointer`,
`sepSym` and `marker` are the stored `self._pointer`, `self._separator`
and `self._marker`. -/
def rawlistNormalText (pointer sepSym marker : String)
    (c : IndexedChoice) : List (String × String) :=
  if c.choice.value.isSeparator then
    [("", spaces pointer.length),
     ("class:marker", if c.choice.enabled then marker else " "),
     ("class:separator", c.choice.name)]
  else
    [("", spaces pointer.length),
     ("class:marker", if c.choice.enabled then marker else " "),
     ("", displayIndexStr c ++ sepSym ++ " "),
     ("", c.choice.name)]

/-- C8 counterexample: the rawlist normal-mode renderer does NOT suppress
the marker column for a separator row: with pointer `">"`, index separator
`")"` and marker `"*"`, the separator row renders as three segments —
padding, a `class:marker` blank, and the separator-styled name — not as the
claimed two segments. -/
theorem separator_row_counterexample :
    rawlistNormalText ">" ")" "*" ⟨mkSep "---", Option.none, Option.none⟩ =
      [("", " "), ("class:marker", " "), ("class:separator", "---")] ∧
    rawlistNormalText ">" ")" "*" ⟨mkSep "---", Option.none, Option.none⟩ ≠
      [("", spaces (String.length ">")), ("class:separator", "---")] :=
  ⟨rfl, by decide⟩

/-- C8 amended: for a separator rendered in normal mode, the checkbox
renderer emits exactly the alignment padding and the separator-styled name,
while the rawlist renderer emits the alignment padding, a marker-column
segment holding a single space (never the marker glyph, since separators
are never enabled), and the separator-styled name; neither emits a checkbox
glyph or an index segment. -/
theorem separator_row_rendering
    (cpointer enabledSymbol disabledSymbol rpointer sepSym marker : String)
    (c : Choice) (ic : IndexedChoice)
    (hc : c.value.isSeparator = true)
    (hic : ic.choice.value.isSeparator = true)
    (hen : ic.choice.enabled = false) :
    checkboxNormalText cpointer enabledSymbol disabledSymbol c =
      [("", spaces cpointer.length), ("class:separator", c.name)] ∧
    rawlistNormalText rpointer sepSym marker ic =
      [("", spaces rpointer.length), ("class:marker", " "),
       ("class:separator", ic.choice.name)] := by
  constructor
  · simp [checkboxNormalText, hc]
  · simp [rawlistNormalText, hic, hen]

/-- Witness for the amended C8 at a concrete separator row. -/
theorem separator_row_rendering_witness :
    checkboxNormalText "> " "[x]" "[ ]" (mkSep "---") =
      [("", spaces (String.length "> ")), ("class:separator", (mkSep "---").name)] ∧
    rawlistNormalText ">" ")" "*" ⟨mkSep "---", Option.none, Option.none⟩ =
      [("", spaces (String.length ">")), ("class:marker", " "),
       ("class:separator",
        (⟨mkSep "---", Option.none, Option.none⟩ : IndexedChoice).choice.name)] :=
  separator_row_rendering "> " "[x]" "[ ]" ">" ")" "*" (mkSep "---")
    ⟨mkSep "---", Option.none, Option.none⟩ (by decide) (by decide) (by decide)
